import Mathlib

/-!
Shallow embedding of `src/minimal_agent/tools.py` (repository
americanthinker/minimal-agent) and proofs about the tool layer.

Python exceptions are modelled by the `PyError` type and fallible calls
return `Except PyError α`: `.ok` is a normal return, `.error` is a raised
exception escaping the call.  Backend I/O (the DuckDuckGo client, the
Tavily client, HTTP fetching, the HTML-to-markdown converter) is opaque to
the tool layer and is passed in as an explicit outcome value or function.
-/

/-- Python exception classes observed by the tool layer.
`ddgSearchException` models `duckduckgo_search.exceptions.DuckDuckGoSearchException`;
`exception` models a plain `Exception(msg)`; the rest model the builtin
`AttributeError`, `ImportError`, `KeyError` and `TypeError`. -/
inductive PyError where
  | ddgSearchException : String → PyError
  | exception : String → PyError
  | attributeError : String → PyError
  | importError : String → PyError
  | keyError : String → PyError
  | typeError : String → PyError
deriving DecidableEq, Repr

/-- The class test performed by `except DuckDuckGoSearchException` in
`WebSearchTool.__call__`. -/
def PyError.isDDGSearchException : PyError → Bool
  | .ddgSearchException _ => true
  | _ => false

/-- A dynamically typed Python value, as far as the tool layer can observe
one (the code never inspects argument types, so two constructors suffice to
distinguish a schema-conforming string from a mismatched value). -/
inductive PyVal where
  | str : String → PyVal
  | int : Int → PyVal
deriving DecidableEq, Repr

/-- A result dict returned by the DuckDuckGo backend; the adapter reads the
keys `title`, `href` and `body` (tools.py line 88). -/
structure DDGResult where
  title : String
  href : String
  body : String
deriving DecidableEq, Repr

/-- A result dict inside the Tavily response; the adapter reads the keys
`title` and `content` (tools.py line 122). `url` is present in the backend
response but never read. -/
structure TavilyResult where
  title : String
  url : String
  content : String
deriving DecidableEq, Repr

/-- The abstract SearchResult of the data model: title, link, snippet. -/
structure SearchResult where
  title : String
  link : String
  snippet : String
deriving DecidableEq, Repr

/-- How the DuckDuckGo backend exposes an abstract result: the link is the
`href` key and the snippet is the `body` key. -/
def SearchResult.toDDG (r : SearchResult) : DDGResult :=
  ⟨r.title, r.link, r.snippet⟩

/-- How the Tavily backend exposes an abstract result: the link is the
`url` key and the snippet is the `content` key. -/
def SearchResult.toTavily (r : SearchResult) : TavilyResult :=
  ⟨r.title, r.link, r.snippet⟩

/-- `f"[{result['title']}]({result['href']})\n{result['body']}"`
(tools.py line 88). -/
def ddgFormatResult (r : DDGResult) : String :=
  "[" ++ r.title ++ "](" ++ r.href ++ ")\n" ++ r.body

/-- `"## Search Results\n\n" + "\n\n".join(postprocessed_results)`
(tools.py lines 87-91). -/
def ddgFormat (rs : List DDGResult) : String :=
  "## Search Results\n\n" ++ String.intercalate "\n\n" (rs.map ddgFormatResult)

/-- `f"[{result['title']}]({result['content']}"` (tools.py line 122): the
format string opens a markdown link on the `content` key and closes
neither the parenthesis nor adds a snippet line. -/
def tavilyFormatResult (r : TavilyResult) : String :=
  "[" ++ r.title ++ "](" ++ r.content

/-- `"## Search Results\n\n" + "\n\n".join(postprocessed_results)`
(tools.py lines 121-124). -/
def tavilyFormat (rs : List TavilyResult) : String :=
  "## Search Results\n\n" ++ String.intercalate "\n\n" (rs.map tavilyFormatResult)

/-- `DuckDuckGoSearchTool.__call__` (tools.py lines 83-91).  The backend
call `self.ddgs.text(query, max_results=...)` either returns a list of
result dicts or raises; that outcome is the argument. -/
def DuckDuckGoSearchTool.call
    (backendOutcome : Except PyError (List DDGResult)) : Except PyError String :=
  match backendOutcome with
  | .error e => .error e
  | .ok results =>
    if results.length == 0 then
      .error (.exception "No results found! Try a less restrictive/shorter query.")
    else
      .ok (ddgFormat results)

/-- A value held by one key of the Tavily response dict: the `results` key
holds the list of result dicts, every other key holds scalar metadata. -/
inductive TavilyField where
  | resultsField : List TavilyResult → TavilyField
  | scalar : String → TavilyField
deriving DecidableEq, Repr

/-- `TavilySearchTool.__call__` (tools.py lines 116-124).  The backend call
`self.client.search(query, include_raw_content="text")` returns the whole
response dict, modelled as an association list of keys to fields; `len()`
of a Python dict is its number of keys, `results["results"]` raises
`KeyError` on a missing key, and slicing a non-list raises `TypeError`. -/
def TavilySearchTool.call (maxResults : Nat)
    (response : List (String × TavilyField)) : Except PyError String :=
  if response.length == 0 then
    .error (.exception "No results found! Try a less restrictive/shorter query.")
  else
    match response.lookup "results" with
    | none => .error (.keyError "results")
    | some (.scalar _) => .error (.typeError "value is not subscriptable")
    | some (.resultsField rs) => .ok (tavilyFormat (rs.take maxResults))

/-- The configured keyed adapter and the backend response its call would
see, present only when `WebSearchTool.__init__` received a string
`tavily_api_key` (tools.py lines 139-142). -/
structure TavilyInvocation where
  maxResults : Nat
  response : List (String × TavilyField)

/-- `WebSearchTool.__call__` (tools.py lines 144-149): try the DuckDuckGo
adapter, catch only `DuckDuckGoSearchException` and retry on Tavily; when
no Tavily adapter was attached the fallback reference `self.tavily` raises
`AttributeError`.  The second component records whether the Tavily adapter
was invoked. -/
def WebSearchTool.call (ddgBackendOutcome : Except PyError (List DDGResult))
    (tavily : Option TavilyInvocation) : Except PyError String × Bool :=
  match DuckDuckGoSearchTool.call ddgBackendOutcome with
  | .ok s => (.ok s, false)
  | .error e =>
    if e.isDDGSearchException then
      match tavily with
      | none => (.error (.attributeError "WebSearchTool object has no attribute tavily"), false)
      | some t => (TavilySearchTool.call t.maxResults t.response, true)
    else
      (.error e, false)

/-- `FinalAnswerTool.__call__` (tools.py lines 12-13). -/
def FinalAnswerTool.call {α : Type} (answer : α) : α := answer

/-- The characters stripped by Python `str.strip()` with no argument
(ASCII whitespace; the further Unicode whitespace code points never occur
in the strings of this development). -/
def isPySpace (c : Char) : Bool :=
  c == ' ' || c == '\t' || c == '\n' || c == '\r' || c == '\x0b' || c == '\x0c'

/-- Python `str.strip()`: drop leading and trailing whitespace. -/
def pyStrip (s : String) : String :=
  ⟨((s.data.dropWhile isPySpace).reverse.dropWhile isPySpace).reverse⟩

/-- Emit a pending maximal run of `k` newlines the way
`re.sub(r"\n\x7b3,\x7d", "\n\n", ...)` leaves it: a run of three or more
newlines becomes exactly two, a shorter run is kept as is. -/
def emitRun (k : Nat) : List Char :=
  List.replicate (if 3 ≤ k then 2 else k) '\n'

/-- Scan the character list left to right, accumulating the length `k` of
the current run of consecutive newlines and flushing it via `emitRun`
whenever a non-newline character or the end of input is reached. -/
def collapseGo : List Char → Nat → List Char
  | [], k => emitRun k
  | c :: rest, k =>
    if c == '\n' then collapseGo rest (k + 1)
    else emitRun k ++ c :: collapseGo rest 0

/-- `re.sub(r"\n\x7b3,\x7d", "\n\n", markdown_content)` (tools.py line 52):
every maximal run of three or more consecutive line breaks is replaced by
exactly two. -/
def collapseNewlines (s : String) : String :=
  ⟨collapseGo s.data 0⟩

/-- Modelled from the spec: `smolagents.utils.truncate_content` is imported
from the external smolagents library (not part of this repository); the
spec describes it as truncating the result to at most `max_output_length`
characters. -/
def truncate_content (content : String) (maxLength : Nat) : String :=
  ⟨content.data.take maxLength⟩

/-- Whether the character list contains three or more consecutive line
breaks somewhere. -/
def hasTripleNewline : List Char → Bool
  | a :: b :: c :: rest =>
    (a == '\n' && b == '\n' && c == '\n') || hasTripleNewline (b :: c :: rest)
  | _ => false

/-- The outcome of `requests.get(url, timeout=20)` followed by
`raise_for_status()` and the conversion pipeline, as observed by the
exception handlers of `VisitWebpageTool.__call__` (tools.py lines 43-61):
a 2xx response whose processed body is available, a `requests` timeout, any
other `RequestException` (a non-2xx status raised by `raise_for_status`, a
connection fault), or any unexpected exception, each carrying its
`str(e)` description. -/
inductive FetchOutcome where
  | ok : String → FetchOutcome
  | timeout : FetchOutcome
  | requestException : String → FetchOutcome
  | unexpected : String → FetchOutcome
deriving DecidableEq, Repr

/-- `VisitWebpageTool.__call__` (tools.py lines 31-61).  `importsOk` is
whether the five imports at the top of the body succeed; when they do not,
the tool raises `ImportError` (lines 39-42).  `convert` is the opaque
`markdownify` converter; the fetch outcome drives the try/except ladder. -/
def VisitWebpageTool.call (maxOutputLength : Nat) (importsOk : Bool)
    (convert : String → String) (outcome : FetchOutcome) : Except PyError String :=
  if importsOk then
    match outcome with
    | .ok body =>
      .ok (truncate_content (collapseNewlines (pyStrip (convert body))) maxOutputLength)
    | .timeout =>
      .ok "The request timed out. Please try again later or check the URL."
    | .requestException msg =>
      .ok ("Error fetching the webpage: " ++ msg)
    | .unexpected msg =>
      .ok ("An unexpected error occurred: " ++ msg)
  else
    .error (.importError "You must install packages `markdownify` and `requests` to run this tool: for instance run `pip install markdownify requests`.")

/-- Whether a call returned a value to the caller (as opposed to raising
an exception that escapes it). -/
def isReturned {α : Type} : Except PyError α → Bool
  | .ok _ => true
  | .error _ => false

/-- Python keyword-argument binding for a one-parameter callable such as
`def __call__(self, query: str)`: exactly the declared name binds; a wrong
or extra name raises `TypeError`; the annotation is not enforced, so the
bound value is whatever the caller supplied. -/
def bindSingleArg (expected : String) (args : List (String × PyVal)) : Except PyError PyVal :=
  match args with
  | [] => .error (.typeError ("missing 1 required positional argument: " ++ expected))
  | [(n, v)] =>
    if n == expected then .ok v
    else .error (.typeError ("got an unexpected keyword argument " ++ n))
  | _ => .error (.typeError "too many arguments")

/-- `DuckDuckGoSearchTool.__call__` invoked dynamically with a keyword
argument dict, as Python does it: bind the arguments against the single
declared parameter `query`, then run the body on whatever value was bound
(tools.py line 83 annotates `query: str`, but Python does not check the
annotation at runtime).  `backend` is the opaque `self.ddgs.text` client
applied to the bound value. -/
def DuckDuckGoSearchTool.dynCall
    (backend : PyVal → Except PyError (List DDGResult))
    (args : List (String × PyVal)) : Except PyError String :=
  match bindSingleArg "query" args with
  | .error e => .error e
  | .ok v => DuckDuckGoSearchTool.call (backend v)

theorem hasTripleNewline_cons (c : Char) (l : List Char) (h : (c == '\n') = false) :
    hasTripleNewline (c :: l) = hasTripleNewline l := by
  match l with
  | [] => simp [hasTripleNewline]
  | [x] => simp [hasTripleNewline]
  | x :: y :: t => simp [hasTripleNewline, h]

theorem hasTripleNewline_one_nl (c : Char) (l : List Char) (hc : (c == '\n') = false)
    (hl : hasTripleNewline l = false) : hasTripleNewline ('\n' :: c :: l) = false := by
  match l with
  | [] => simp [hasTripleNewline]
  | x :: t =>
    have h2 : hasTripleNewline (c :: x :: t) = false := by
      rw [hasTripleNewline_cons c (x :: t) hc]; exact hl
    show ((('\n' : Char) == '\n') && (c == '\n') && (x == '\n')
        || hasTripleNewline (c :: x :: t)) = false
    rw [h2, hc]
    simp

theorem hasTripleNewline_two_nl (c : Char) (l : List Char) (hc : (c == '\n') = false)
    (hl : hasTripleNewline l = false) :
    hasTripleNewline ('\n' :: '\n' :: c :: l) = false := by
  show ((('\n' : Char) == '\n') && (('\n' : Char) == '\n') && (c == '\n')
      || hasTripleNewline ('\n' :: c :: l)) = false
  rw [hasTripleNewline_one_nl c l hc hl, hc]
  simp

theorem hasTripleNewline_emitRun (k : Nat) : hasTripleNewline (emitRun k) = false := by
  unfold emitRun
  by_cases h3 : 3 ≤ k
  · simp only [if_pos h3]; rfl
  · simp only [if_neg h3]
    have hk : k < 3 := Nat.lt_of_not_le h3
    interval_cases k <;> rfl

theorem hasTripleNewline_emitRun_append (k : Nat) (c : Char) (l : List Char)
    (hc : (c == '\n') = false) (hl : hasTripleNewline l = false) :
    hasTripleNewline (emitRun k ++ c :: l) = false := by
  unfold emitRun
  by_cases h3 : 3 ≤ k
  · simp only [if_pos h3]
    exact hasTripleNewline_two_nl c l hc hl
  · simp only [if_neg h3]
    have hk : k < 3 := Nat.lt_of_not_le h3
    interval_cases k
    · show hasTripleNewline (c :: l) = false
      rw [hasTripleNewline_cons c l hc]; exact hl
    · exact hasTripleNewline_one_nl c l hc hl
    · exact hasTripleNewline_two_nl c l hc hl

theorem hasTripleNewline_collapseGo (l : List Char) :
    ∀ k, hasTripleNewline (collapseGo l k) = false := by
  induction l with
  | nil => intro k; exact hasTripleNewline_emitRun k
  | cons c rest ih =>
    intro k
    cases hc : (c == '\n') with
    | true =>
      show hasTripleNewline (if c == '\n' then collapseGo rest (k + 1)
          else emitRun k ++ c :: collapseGo rest 0) = false
      rw [hc]
      simp only [if_true]
      exact ih (k + 1)
    | false =>
      show hasTripleNewline (if c == '\n' then collapseGo rest (k + 1)
          else emitRun k ++ c :: collapseGo rest 0) = false
      rw [hc]
      simp only [Bool.false_eq_true, if_false]
      exact hasTripleNewline_emitRun_append k c _ hc (ih 0)

theorem hasTripleNewline_take : ∀ (l : List Char) (n : Nat),
    hasTripleNewline l = false → hasTripleNewline (l.take n) = false
  | [], n, _ => by simp [List.take_nil, hasTripleNewline]
  | [a], n, _ => by
    match n with
    | 0 => rfl
    | n + 1 => simp [List.take_succ_cons, List.take_nil, hasTripleNewline]
  | [a, b], n, _ => by
    match n with
    | 0 => rfl
    | 1 => simp [hasTripleNewline]
    | n + 2 => simp [List.take_succ_cons, List.take_nil, hasTripleNewline]
  | a :: b :: c :: rest, n, h => by
    have h' : ((a == '\n' && b == '\n' && c == '\n')
        || hasTripleNewline (b :: c :: rest)) = false := h
    have h1 := Bool.or_eq_false_iff.mp h'
    match n with
    | 0 => rfl
    | 1 => simp [hasTripleNewline]
    | 2 => simp [hasTripleNewline]
    | m + 3 =>
      have ht := hasTripleNewline_take (b :: c :: rest) (m + 2) h1.2
      show ((a == '\n' && b == '\n' && c == '\n')
          || hasTripleNewline ((b :: c :: rest).take (m + 2))) = false
      rw [h1.1, ht]
      rfl

/-- Claim C1: whenever the free-tier (DuckDuckGo) adapter succeeds with at
least one result, `WebSearchTool.__call__` returns exactly the free-tier
adapter's formatted output and never invokes the keyed (Tavily) adapter. -/
theorem C1_primary_success_no_fallback
    (rs : List DDGResult) (tavily : Option TavilyInvocation)
    (h : 1 ≤ rs.length) :
    WebSearchTool.call (.ok rs) tavily = (.ok (ddgFormat rs), false) := by
  match rs, h with
  | r :: rest, _ => rfl

/-- Witness for C1 at the concrete one-result query of the spec. -/
theorem C1_primary_success_no_fallback_witness :
    WebSearchTool.call (.ok [⟨"Paris", "https://x", "Paris is the capital"⟩])
        (some ⟨10, [("results", TavilyField.resultsField [])]⟩)
      = (.ok (ddgFormat [⟨"Paris", "https://x", "Paris is the capital"⟩]), false) :=
  C1_primary_success_no_fallback _ _ (by decide)

/-- Claim C2 (evaluation at the failing input): on the same backend result
(title Paris, link https://x, snippet Paris is the capital), the free-tier
formatter and the keyed formatter produce different strings, so the two
formatting functions are not extensionally equal. -/
theorem C2_formatters_differ :
    ddgFormat [SearchResult.toDDG ⟨"Paris", "https://x", "Paris is the capital"⟩]
      ≠ tavilyFormat [SearchResult.toTavily ⟨"Paris", "https://x", "Paris is the capital"⟩] := by
  decide

/-- Claim C3 (evaluation at the failing input): a Tavily backend response
whose `results` list is empty is still a dict with three keys, so the
`len(results) == 0` guard does not fire and the keyed adapter returns the
bare heading as a success value instead of raising. -/
theorem C3_keyed_adapter_returns_empty_success :
    TavilySearchTool.call 10
        [("query", TavilyField.scalar "capital of France"),
         ("results", TavilyField.resultsField []),
         ("response_time", TavilyField.scalar "0.2")]
      = .ok "## Search Results\n\n" := rfl

/-- Claim C4: any failure of the free-tier adapter other than
`DuckDuckGoSearchException` propagates out of `WebSearchTool.__call__`
unchanged and the keyed adapter is not invoked. -/
theorem C4_non_outage_propagates_without_fallback
    (b : Except PyError (List DDGResult)) (tavily : Option TavilyInvocation)
    (e : PyError)
    (hcall : DuckDuckGoSearchTool.call b = .error e)
    (hnot : e.isDDGSearchException = false) :
    WebSearchTool.call b tavily = (.error e, false) := by
  unfold WebSearchTool.call
  rw [hcall]
  show (if e.isDDGSearchException then _ else (Except.error e, false)) = (Except.error e, false)
  rw [hnot]
  simp

/-- Witness for C4: the zero-results error raised by the free-tier adapter
propagates even though a keyed adapter is configured. -/
theorem C4_non_outage_propagates_without_fallback_witness :
    WebSearchTool.call (.ok []) (some ⟨10, [("results", TavilyField.resultsField [])]⟩)
      = (.error (.exception "No results found! Try a less restrictive/shorter query."), false) :=
  C4_non_outage_propagates_without_fallback _ _ _ rfl rfl

/-- Claim C5: if the free-tier adapter raises the outage fault and no keyed
adapter was configured, the invocation fails with a defined failure (the
missing-attribute fault on the absent `tavily` member), not a silent empty
success. -/
theorem C5_outage_without_keyed_adapter_fails
    (b : Except PyError (List DDGResult)) (msg : String)
    (hcall : DuckDuckGoSearchTool.call b = .error (.ddgSearchException msg)) :
    WebSearchTool.call b none
      = (.error (.attributeError "WebSearchTool object has no attribute tavily"), false) := by
  unfold WebSearchTool.call
  rw [hcall]
  rfl

/-- Witness for C5 at a concrete rate-limit outage. -/
theorem C5_outage_without_keyed_adapter_fails_witness :
    WebSearchTool.call (.error (.ddgSearchException "Ratelimit")) none
      = (.error (.attributeError "WebSearchTool object has no attribute tavily"), false) :=
  C5_outage_without_keyed_adapter_fails _ "Ratelimit" rfl

/-- Claim C6 (counterexample): when the imports at the top of
`VisitWebpageTool.__call__` fail, the tool raises `ImportError`, so an
exception does escape invoke. -/
theorem C6_import_error_escapes :
    VisitWebpageTool.call 40000 false (fun s => s) FetchOutcome.timeout
      = .error (.importError "You must install packages `markdownify` and `requests` to run this tool: for instance run `pip install markdownify requests`.") := rfl

/-- Claim C6 (amended): provided the required libraries import
successfully, every fetch outcome — timeout, non-2xx status, connection
fault, or any unexpected fault during conversion — makes invoke return a
descriptive string, and no exception escapes. -/
theorem C6_no_exception_escapes_when_imports_ok
    (maxLen : Nat) (convert : String → String) (outcome : FetchOutcome) :
    isReturned (VisitWebpageTool.call maxLen true convert outcome) = true := by
  cases outcome <;> rfl

/-- Claim C7: every successful fetch returns a string of length at most
`max_output_length` containing no run of three or more consecutive line
breaks. -/
theorem C7_success_output_bounded_and_collapsed
    (maxLen : Nat) (convert : String → String) (body : String) :
    ∃ s : String,
      VisitWebpageTool.call maxLen true convert (FetchOutcome.ok body) = .ok s
        ∧ s.length ≤ maxLen
        ∧ hasTripleNewline s.data = false := by
  refine ⟨truncate_content (collapseNewlines (pyStrip (convert body))) maxLen, rfl, ?_, ?_⟩
  · show (List.take maxLen (collapseNewlines (pyStrip (convert body))).data).length ≤ maxLen
    rw [List.length_take]
    exact Nat.min_le_left _ _
  · show hasTripleNewline
        (List.take maxLen (collapseGo (pyStrip (convert body)).data 0)) = false
    exact hasTripleNewline_take _ maxLen (hasTripleNewline_collapseGo _ 0)

/-- Claim C8: a timeout during the HTTP GET makes
`VisitWebpageTool.__call__` return exactly the fixed literal string. -/
theorem C8_timeout_returns_literal (maxLen : Nat) (convert : String → String) :
    VisitWebpageTool.call maxLen true convert FetchOutcome.timeout
      = .ok "The request timed out. Please try again later or check the URL." := rfl

/-- Claim C9 (counterexample): an argument set whose `query` value is an
integer — a coarse-type mismatch with the declared string schema — is
accepted and processed to a success string; no InvalidArguments failure
occurs anywhere. -/
theorem C9_type_mismatch_accepted :
    DuckDuckGoSearchTool.dynCall
        (fun _ => .ok [⟨"Paris", "https://x", "Paris is the capital"⟩])
        [("query", PyVal.int 7)]
      = .ok "## Search Results\n\n[Paris](https://x)\nParis is the capital" := rfl

/-- Claim C9 (amended): invoke performs no type validation — any value
bound to `query` is passed to the backend unchanged — and argument names
are enforced only by the language calling convention, a wrong name failing
with a `TypeError`, not an InvalidArguments error. -/
theorem C9_no_schema_validation
    (backend : PyVal → Except PyError (List DDGResult)) (n : String) (v : PyVal) :
    DuckDuckGoSearchTool.dynCall backend [("query", v)]
      = DuckDuckGoSearchTool.call (backend v)
    ∧ ((n == "query") = false →
        DuckDuckGoSearchTool.dynCall backend [(n, v)]
          = .error (.typeError ("got an unexpected keyword argument " ++ n))) := by
  constructor
  · rfl
  · intro h
    simp [DuckDuckGoSearchTool.dynCall, bindSingleArg, h]

/-- Witness for C9 (amended) at a concrete backend and arguments. -/
theorem C9_no_schema_validation_witness :
    DuckDuckGoSearchTool.dynCall
        (fun _ => .ok [⟨"Paris", "https://x", "Paris is the capital"⟩])
        [("query", PyVal.str "capital of France")]
      = DuckDuckGoSearchTool.call (.ok [⟨"Paris", "https://x", "Paris is the capital"⟩])
    ∧ DuckDuckGoSearchTool.dynCall
        (fun _ => .ok [⟨"Paris", "https://x", "Paris is the capital"⟩])
        [("url", PyVal.str "capital of France")]
      = .error (.typeError ("got an unexpected keyword argument " ++ "url")) :=
  ⟨(C9_no_schema_validation _ "url" (PyVal.str "capital of France")).1,
   (C9_no_schema_validation _ "url" (PyVal.str "capital of France")).2 (by decide)⟩

/-- Claim C10: the final_answer tool returns its input unchanged, for every
value of every type. -/
theorem C10_final_answer_identity {α : Type} (a : α) : FinalAnswerTool.call a = a := rfl
